import Mathlib

/-
Verification of the job execution and delivery pipeline in `workers.py`
(ManageIQ/aiops-ai-library): the `_retryable` bounded-retry HTTP sender and
the `volume_type_validation_worker` job worker.

The Python code is shallowly embedded: the nondeterministic environment
(what each HTTP attempt does, what the external validator returns) is an
explicit parameter, and the worker is a pure function from the job, its
arguments and the environment to a record of its observable behaviour
(outcome, error-level log messages, number of HTTP calls issued, and the
request handed to the HTTP layer).
-/

set_option autoImplicit false

namespace Workers

/-- A JSON-like value, the type of Python objects that flow through the
worker (job fields, records, validator results). -/
inductive Json where
  | null
  | bool (b : Bool)
  | num (n : Int)
  | str (s : String)
  | arr (elems : List Json)
  | obj (fields : List (String × Json))

/-- Python `str()` of a value, as used by the `%s` directives of the
worker's log calls.  Composite values are abbreviated (the claims only
render string job ids); scalars follow Python rendering. -/
def pyStr : Json → String
  | .null => "None"
  | .bool b => if b then "True" else "False"
  | .num n => toString n
  | .str s => s
  | .arr _ => "<list>"
  | .obj _ => "<dict>"

/-- Python dict lookup `d[k]` / `d.get(k)` on a key-value list (keys are
unique in a Python dict; the first binding wins). -/
def dictGet (d : List (String × Json)) (k : String) : Option Json :=
  match d with
  | [] => none
  | (k2, v) :: rest => if k2 = k then some v else dictGet rest k

/-- An HTTP response, as far as `_retryable` inspects it:
`requests.Response` with its `status_code` (the body is kept so that
"returns the response of the first successful attempt" is observable). -/
structure Response where
  status_code : Nat
  body : String
deriving DecidableEq, Repr

/-- The exceptions relevant to `_retryable` and the worker:
`requests.HTTPError`, `requests.ConnectionError`, and any other exception
(for example `requests.ReadTimeout`, which subclasses neither). -/
inductive PyExc where
  | httpError (msg : String)
  | connectionError (msg : String)
  | other (msg : String)
deriving DecidableEq, Repr

/-- The message of an exception (Python `str(e)`). -/
def PyExc.msg : PyExc → String
  | .httpError m => m
  | .connectionError m => m
  | .other m => m

/-- `Response.raise_for_status` from the requests library: raises
`requests.HTTPError` exactly for 4xx client errors and 5xx server errors;
any other status (including 1xx/2xx/3xx) raises nothing. -/
def raise_for_status (r : Response) : Option PyExc :=
  if 400 ≤ r.status_code ∧ r.status_code < 500 then
    some (.httpError (toString r.status_code ++ " Client Error"))
  else if 500 ≤ r.status_code ∧ r.status_code < 600 then
    some (.httpError (toString r.status_code ++ " Server Error"))
  else
    none

/-- The outcome of one HTTP call `getattr(session, method)(*args, **kwargs)`
as decided by the environment: the call returns a response, raises
`requests.ConnectionError`, or raises some other exception. -/
inductive Attempt where
  | resp (r : Response)
  | connErr (msg : String)
  | otherExc (msg : String)
deriving DecidableEq, Repr

/-- How a call to `_retryable` ends: returning a response, or raising an
exception. -/
inductive RetryOutcome where
  | returns (r : Response)
  | raises (e : PyExc)
deriving DecidableEq, Repr

/-- Number of attempts of the retry loop: `MAX_RETRIES = 3` in workers.py. -/
def MAX_RETRIES : Nat := 3

/-- The body of `_retryable`: `for attempt in range(MAX_RETRIES)` around one
HTTP call per iteration.  `att i` is what the i-th call would do; `i` counts
the calls issued so far, `fuel` the iterations left.  A raised
`requests.HTTPError` (from `raise_for_status`) or `requests.ConnectionError`
is caught, a warning is logged and the loop continues; any other exception
propagates; a response surviving `raise_for_status` is returned.  When the
loop exhausts, `requests.HTTPError("All attempts failed")` is raised.
The second component of the result is the number of HTTP calls issued. -/
def retryLoop (att : Nat → Attempt) (i : Nat) : Nat → RetryOutcome × Nat
  | 0 => (.raises (.httpError "All attempts failed"), i)
  | fuel + 1 =>
    match att i with
    | .connErr _ => retryLoop att (i + 1) fuel
    | .otherExc m => (.raises (.other m), i + 1)
    | .resp r =>
      match raise_for_status r with
      | some _ => retryLoop att (i + 1) fuel
      | none => (.returns r, i + 1)

/-- `_retryable(method, *args, **kwargs)` from workers.py, run against an
environment `att` describing each attempt: the outcome together with the
number of HTTP calls issued. -/
def _retryable (att : Nat → Attempt) : RetryOutcome × Nat :=
  retryLoop att 0 MAX_RETRIES

/-- An attempt whose exception is caught by the loop's
`except (requests.HTTPError, requests.ConnectionError)` clause, making the
loop continue: a connection-level failure, or a response that
`raise_for_status` rejects (4xx/5xx). -/
def attemptRetries : Attempt → Bool
  | .resp r => (raise_for_status r).isSome
  | .connErr _ => true
  | .otherExc _ => false

/-- An attempt the loop returns from: a response that `raise_for_status`
accepts (status outside 400-599). -/
def attemptSucceeds : Attempt → Bool
  | .resp r => (raise_for_status r).isNone
  | .connErr _ => false
  | .otherExc _ => false

/-- An attempt function from a finite script, `d` beyond the script. -/
def attFromList (l : List Attempt) (d : Attempt) : Nat → Attempt :=
  fun i => l.getD i d

/-- The fixed entity list of `volume_type_validation_worker`. -/
def entities : List String :=
  ["container_nodes", "container_nodes_tags", "volume_attachments",
   "volumes", "volume_types", "vms", "sources"]

/-- `pd.DataFrame(json_data)` for the inputs the worker can feed it:
`pd.DataFrame(None)` (entity absent from the job's data) is an empty frame;
a list of records becomes a frame with those rows in order.  Inputs outside
the well-formed job shape (a non-sequence value) are modelled as an error,
standing for the exception pandas raises there. -/
def pdDataFrame : Option Json → Except String (List Json)
  | none => .ok []
  | some (.arr rows) => .ok rows
  | some _ => .error "pandas: DataFrame constructor error"

/-- The materialization loop over a list of entity names: each iteration
evaluates `pd.DataFrame(batch_data.get(entity))` and stores it under the
entity name; the first pandas exception aborts the loop. -/
def materializeList (batch_data : List (String × Json)) :
    List String → Except String (List (String × List Json))
  | [] => .ok []
  | e :: rest =>
    match pdDataFrame (dictGet batch_data e) with
    | .error m => .error m
    | .ok t =>
      match materializeList batch_data rest with
      | .error m => .error m
      | .ok ts => .ok ((e, t) :: ts)

/-- The materialization loop of the worker:
`for entity in entities: all_dataframes[entity] = pd.DataFrame(batch_data.get(entity))`,
producing the dataframes dict in entity order. -/
def materialize (batch_data : List (String × Json)) :
    Except String (List (String × List Json)) :=
  materializeList batch_data entities

/-- A value that is a Python list (a JSON array). -/
def Json.isArr : Json → Bool
  | .arr _ => true
  | _ => false

/-- What `AwsVolumeTypeValidation(all_dataframes).validate()` does: the
external validator either produces a result (whose `to_dict()` is a
string-keyed mapping) or raises. -/
inductive ValidatorOutcome where
  | returns (result_dict : List (String × Json))
  | raises (msg : String)

/-- The environment of one worker run: the external validator and the
behaviour of each outbound HTTP attempt. -/
structure Env where
  validator : List (String × List Json) → ValidatorOutcome
  http : Nat → Attempt

/-- Header preparation in the requests library (`merge_setting` in
`Session.prepare_request`): keys whose value is `None` are removed, so a
`None`-valued header is not sent at all. -/
def prepareHeaders (hs : List (String × Option String)) : List (String × String) :=
  hs.filterMap fun kv => kv.2.map fun v => (kv.1, v)

/-- The outbound request as handed to `_retryable`: method, URL, JSON body
and the prepared headers. -/
structure HttpRequest where
  method : String
  url : String
  body : Json
  headers : List (String × String)

/-- How the worker function ends: early `return` after a `KeyError` on the
job dict; abnormal termination by an uncaught exception; normal completion
with the response delivered; or normal completion after exhausted delivery
(the caught `HTTPError("All attempts failed")`). -/
inductive WorkerOutcome where
  | malformedAbort
  | crashed (msg : String)
  | doneOk
  | doneDeliveryFailed

/-- The observable behaviour of one worker run: its outcome, the error-level
log messages it emitted (thread-name prefixes elided), the number of HTTP
calls issued, and the request handed to `_retryable` (none when dispatch was
never reached). -/
structure WorkerRun where
  outcome : WorkerOutcome
  errorLogs : List String
  httpCalls : Nat
  sent : Option HttpRequest

/-- The run produced by the `except KeyError` handler:
`logger.error("...: Invalid Job data, terminated."); return`. -/
def abortRun : WorkerRun :=
  { outcome := .malformedAbort
    errorLogs := ["Invalid Job data, terminated."]
    httpCalls := 0
    sent := none }

/-- The inner `worker()` closure of `volume_type_validation_worker`, as a
function of the job, the launcher arguments and the environment.  Mirrors
the source step by step: tuple extraction of `job["id"], job["data"]` with
`KeyError` caught; materialization of the fixed entity list into dataframes;
the validator call (uncaught on error); envelope construction; dispatch via
`_retryable` with only `requests.HTTPError` caught. -/
def worker (job : List (String × Json)) (next_service ai_service : String)
    (b64_identity : Option String) (env : Env) : WorkerRun :=
  match dictGet job "id" with
  | none => abortRun
  | some batch_id =>
    match dictGet job "data" with
    | none => abortRun
    | some batch_data =>
      match batch_data with
      | .obj bd =>
        match materialize bd with
        | .error m => { outcome := .crashed m, errorLogs := [], httpCalls := 0, sent := none }
        | .ok all_dataframes =>
          match env.validator all_dataframes with
          | .raises m => { outcome := .crashed m, errorLogs := [], httpCalls := 0, sent := none }
          | .returns result_dict =>
            let output : Json := .obj
              [("id", batch_id), ("ai_service", .str ai_service),
               ("data", .obj result_dict)]
            let req : HttpRequest :=
              { method := "post", url := next_service, body := output
                headers := prepareHeaders [("x-rh-identity", b64_identity)] }
            match _retryable env.http with
            | (.returns _, n) =>
              { outcome := .doneOk, errorLogs := [], httpCalls := n, sent := some req }
            | (.raises (.httpError m), n) =>
              { outcome := .doneDeliveryFailed
                errorLogs :=
                  ["Failed to pass data for \"" ++ pyStr batch_id ++ "\": " ++ m]
                httpCalls := n
                sent := some req }
            | (.raises e, n) =>
              { outcome := .crashed (PyExc.msg e), errorLogs := [], httpCalls := n
                sent := some req }
      | _ =>
        { outcome := .crashed "AttributeError: batch_data.get", errorLogs := []
          httpCalls := 0, sent := none }

/-- An attempt script on which every call returns HTTP 304 Not Modified. -/
def c1att : Nat → Attempt := fun _ => .resp ⟨304, "not modified"⟩

/-- Persistent-failure script for the C2 witness. -/
def c2att : Nat → Attempt :=
  attFromList [.connErr "a", .connErr "b", .connErr "c"] (.connErr "z")

/-- Script equal to `c2att` on the three issued calls, different beyond. -/
def c2att2 : Nat → Attempt :=
  attFromList [.connErr "a", .connErr "b", .connErr "c"] (.resp ⟨200, "ok"⟩)

/-- A script succeeding immediately with a 200 response. -/
def c2att3 : Nat → Attempt := attFromList [.resp ⟨200, "ok"⟩] (.connErr "z")

/-- Attempt script on which every call raises a ConnectionError "boom". -/
def c3att : Nat → Attempt := fun _ => .connErr "boom"

/-- A job carrying "data" but no "id". -/
def c4job : List (String × Json) := [("data", .obj [])]

/-- An environment whose validator returns an empty result and whose HTTP
endpoint always answers 200. -/
def envOk : Env :=
  { validator := fun _ => .returns [("flagged", .arr [])]
    http := fun _ => .resp ⟨200, "ok"⟩ }

/-- A well-formed job: id "b1", data binding only "volumes" to one record. -/
def wellData : List (String × Json) :=
  [("volumes", .arr [.obj [("id", .num 1), ("volume_type", .str "gp2")]])]

/-- The job dict wrapping `wellData`. -/
def wellJob : List (String × Json) :=
  [("id", .str "b1"), ("data", .obj wellData)]

/-- The dataframes materialized from `wellData`: one table per entity, all
empty except "volumes". -/
def wellTables : List (String × List Json) :=
  [("container_nodes", []), ("container_nodes_tags", []),
   ("volume_attachments", []),
   ("volumes", [.obj [("id", .num 1), ("volume_type", .str "gp2")]]),
   ("volume_types", []), ("vms", []), ("sources", [])]

/-- An environment whose validator raises. -/
def envRaise : Env :=
  { validator := fun _ => .raises "KeyError in validator"
    http := fun _ => .resp ⟨200, "ok"⟩ }

/-- The error-level log message of the worker's `except requests.HTTPError`
handler around dispatch, for job id `bid` (thread-name prefix elided). -/
def deliveryFailedLog (bid : String) : String :=
  "Failed to pass data for \"" ++ bid ++ "\": " ++ "All attempts failed"

/-- An environment whose endpoint answers 500 on every attempt. -/
def envFail : Env :=
  { validator := fun _ => .returns [("flagged", .arr [])]
    http := fun _ => .resp ⟨500, "err"⟩ }

/-- The headers of the request a worker run handed to the HTTP layer. -/
def sentHeaders (w : WorkerRun) : Option (List (String × String)) :=
  w.sent.map fun r => r.headers

/-- An environment: first attempt a connection failure, second a read
timeout, validator well-behaved. -/
def envTimeout : Env :=
  { validator := fun _ => .returns [("flagged", .arr [])]
    http := attFromList [.connErr "reset", .otherExc "read timed out"]
      (.resp ⟨200, "ok"⟩) }

/-- If every attempt the loop can reach is a caught failure, the loop runs
out of fuel and raises the constant final error, having issued one call per
iteration. -/
theorem retryLoop_all_fail (att : Nat → Attempt) (fuel : Nat) :
    ∀ i, (∀ j, j < fuel → attemptRetries (att (i + j)) = true) →
      retryLoop att i fuel = (.raises (.httpError "All attempts failed"), i + fuel) := by
  induction fuel with
  | zero => intro i _; simp [retryLoop]
  | succ fuel ih =>
    intro i h
    have h0 : attemptRetries (att i) = true := by
      simpa using h 0 (Nat.succ_pos fuel)
    have hrest : ∀ j, j < fuel → attemptRetries (att (i + 1 + j)) = true := by
      intro j hj
      have e : i + 1 + j = i + (j + 1) := by omega
      rw [e]
      exact h (j + 1) (by omega)
    cases hatt : att i with
    | connErr m =>
      simp only [retryLoop, hatt, ih (i + 1) hrest, Prod.mk.injEq]
      exact ⟨trivial, by omega⟩
    | otherExc m => simp [attemptRetries, hatt] at h0
    | resp r =>
      have h0r : (raise_for_status r).isSome = true := by
        simpa [attemptRetries, hatt] using h0
      cases hrs : raise_for_status r with
      | none => simp [hrs] at h0r
      | some e2 =>
        simp only [retryLoop, hatt, hrs, ih (i + 1) hrest, Prod.mk.injEq]
        exact ⟨trivial, by omega⟩

/-- If the first `k` attempts are caught failures and attempt `k` is a
response accepted by `raise_for_status`, the loop returns that response and
has issued exactly `k + 1` calls. -/
theorem retryLoop_first_success (att : Nat → Attempt) (k : Nat) :
    ∀ i fuel, k < fuel →
      (∀ j, j < k → attemptRetries (att (i + j)) = true) →
      ∀ r, att (i + k) = .resp r → raise_for_status r = none →
        retryLoop att i fuel = (.returns r, i + k + 1) := by
  induction k with
  | zero =>
    intro i fuel hk hpre r hat hrs
    cases fuel with
    | zero => omega
    | succ fuel =>
      have hat0 : att i = .resp r := by simpa using hat
      simp only [retryLoop, hat0, hrs]
  | succ k ih =>
    intro i fuel hk hpre r hat hrs
    cases fuel with
    | zero => omega
    | succ fuel =>
      have h0 : attemptRetries (att i) = true := by
        simpa using hpre 0 (Nat.succ_pos k)
      have hpre2 : ∀ j, j < k → attemptRetries (att (i + 1 + j)) = true := by
        intro j hj
        have e : i + 1 + j = i + (j + 1) := by omega
        rw [e]
        exact hpre (j + 1) (by omega)
      have hat2 : att (i + 1 + k) = .resp r := by
        have e : i + 1 + k = i + (k + 1) := by omega
        rw [e]
        exact hat
      cases hatt : att i with
      | connErr m =>
        simp only [retryLoop, hatt,
          ih (i + 1) fuel (by omega) hpre2 r hat2 hrs, Prod.mk.injEq]
        exact ⟨trivial, by omega⟩
      | otherExc m => simp [attemptRetries, hatt] at h0
      | resp r0 =>
        have h0r : (raise_for_status r0).isSome = true := by
          simpa [attemptRetries, hatt] using h0
        cases hrs0 : raise_for_status r0 with
        | none => simp [hrs0] at h0r
        | some e2 =>
          simp only [retryLoop, hatt, hrs0,
            ih (i + 1) fuel (by omega) hpre2 r hat2 hrs, Prod.mk.injEq]
          exact ⟨trivial, by omega⟩

/-- If the first `k` attempts are caught failures and attempt `k` raises an
exception that is neither `HTTPError` nor `ConnectionError`, that exception
propagates immediately: the loop ends with it after exactly `k + 1` calls,
the remaining attempts unused. -/
theorem retryLoop_first_other (att : Nat → Attempt) (k : Nat) :
    ∀ i fuel, k < fuel →
      (∀ j, j < k → attemptRetries (att (i + j)) = true) →
      ∀ m, att (i + k) = .otherExc m →
        retryLoop att i fuel = (.raises (.other m), i + k + 1) := by
  induction k with
  | zero =>
    intro i fuel hk hpre m hat
    cases fuel with
    | zero => omega
    | succ fuel =>
      have hat0 : att i = .otherExc m := by simpa using hat
      simp only [retryLoop, hat0]
  | succ k ih =>
    intro i fuel hk hpre m hat
    cases fuel with
    | zero => omega
    | succ fuel =>
      have h0 : attemptRetries (att i) = true := by
        simpa using hpre 0 (Nat.succ_pos k)
      have hpre2 : ∀ j, j < k → attemptRetries (att (i + 1 + j)) = true := by
        intro j hj
        have e : i + 1 + j = i + (j + 1) := by omega
        rw [e]
        exact hpre (j + 1) (by omega)
      have hat2 : att (i + 1 + k) = .otherExc m := by
        have e : i + 1 + k = i + (k + 1) := by omega
        rw [e]
        exact hat
      cases hatt : att i with
      | connErr m0 =>
        simp only [retryLoop, hatt,
          ih (i + 1) fuel (by omega) hpre2 m hat2, Prod.mk.injEq]
        exact ⟨trivial, by omega⟩
      | otherExc m0 => simp [attemptRetries, hatt] at h0
      | resp r0 =>
        have h0r : (raise_for_status r0).isSome = true := by
          simpa [attemptRetries, hatt] using h0
        cases hrs0 : raise_for_status r0 with
        | none => simp [hrs0] at h0r
        | some e2 =>
          simp only [retryLoop, hatt, hrs0,
            ih (i + 1) fuel (by omega) hpre2 m hat2, Prod.mk.injEq]
          exact ⟨trivial, by omega⟩

/-- Inversion: if the loop returns a response, some reachable attempt
produced exactly that response and `raise_for_status` accepted it. -/
theorem retryLoop_returns (att : Nat → Attempt) (fuel : Nat) :
    ∀ i r n, retryLoop att i fuel = (.returns r, n) →
      ∃ j, j < fuel ∧ att (i + j) = .resp r ∧ raise_for_status r = none := by
  induction fuel with
  | zero => intro i r n h; simp [retryLoop] at h
  | succ fuel ih =>
    intro i r n h
    cases hatt : att i with
    | connErr m =>
      simp only [retryLoop, hatt] at h
      obtain ⟨j, hj, h1, h2⟩ := ih (i + 1) r n h
      refine ⟨j + 1, by omega, ?_, h2⟩
      have e : i + (j + 1) = i + 1 + j := by omega
      rw [e]
      exact h1
    | otherExc m =>
      simp only [retryLoop, hatt, Prod.mk.injEq] at h
      exact RetryOutcome.noConfusion h.1
    | resp r0 =>
      cases hrs : raise_for_status r0 with
      | some e2 =>
        simp only [retryLoop, hatt, hrs] at h
        obtain ⟨j, hj, h1, h2⟩ := ih (i + 1) r n h
        refine ⟨j + 1, by omega, ?_, h2⟩
        have e : i + (j + 1) = i + 1 + j := by omega
        rw [e]
        exact h1
      | none =>
        simp only [retryLoop, hatt, hrs, Prod.mk.injEq,
          RetryOutcome.returns.injEq] at h
        refine ⟨0, by omega, ?_, ?_⟩
        · rw [Nat.add_zero, hatt, h.1]
        · rw [← h.1]; exact hrs

/-- The loop never issues fewer calls than it had already issued. -/
theorem retryLoop_le_count (att : Nat → Attempt) (fuel : Nat) :
    ∀ i, i ≤ (retryLoop att i fuel).2 := by
  induction fuel with
  | zero => intro i; simp [retryLoop]
  | succ fuel ih =>
    intro i
    cases hatt : att i with
    | connErr m =>
      simp only [retryLoop, hatt]
      exact le_trans (by omega) (ih (i + 1))
    | otherExc m => simp only [retryLoop, hatt]; omega
    | resp r =>
      cases hrs : raise_for_status r with
      | some e =>
        simp only [retryLoop, hatt, hrs]
        exact le_trans (by omega) (ih (i + 1))
      | none => simp only [retryLoop, hatt, hrs]; omega

/-- The loop issues at most one call per unit of fuel. -/
theorem retryLoop_count_le (att : Nat → Attempt) (fuel : Nat) :
    ∀ i, (retryLoop att i fuel).2 ≤ i + fuel := by
  induction fuel with
  | zero => intro i; simp [retryLoop]
  | succ fuel ih =>
    intro i
    cases hatt : att i with
    | connErr m =>
      simp only [retryLoop, hatt]
      exact le_trans (ih (i + 1)) (by omega)
    | otherExc m => simp only [retryLoop, hatt]; omega
    | resp r =>
      cases hrs : raise_for_status r with
      | some e =>
        simp only [retryLoop, hatt, hrs]
        exact le_trans (ih (i + 1)) (by omega)
      | none => simp only [retryLoop, hatt, hrs]; omega

/-- With fuel left, the loop issues at least one call. -/
theorem retryLoop_count_pos (att : Nat → Attempt) (fuel i : Nat) :
    i + 1 ≤ (retryLoop att i (fuel + 1)).2 := by
  cases hatt : att i with
  | connErr m =>
    simp only [retryLoop, hatt]
    exact retryLoop_le_count att fuel (i + 1)
  | otherExc m => simp only [retryLoop, hatt]; omega
  | resp r =>
    cases hrs : raise_for_status r with
    | some e =>
      simp only [retryLoop, hatt, hrs]
      exact retryLoop_le_count att fuel (i + 1)
    | none => simp only [retryLoop, hatt, hrs]; omega

/-- The loop consults only the attempts it issues: two environments that
agree on every index below the number of issued calls yield the same run. -/
theorem retryLoop_congr (att att' : Nat → Attempt) (fuel : Nat) :
    ∀ i, (∀ j, i ≤ j → j < (retryLoop att i fuel).2 → att j = att' j) →
      retryLoop att i fuel = retryLoop att' i fuel := by
  induction fuel with
  | zero => intro i _; simp [retryLoop]
  | succ fuel ih =>
    intro i h
    have hi : att i = att' i := h i le_rfl (retryLoop_count_pos att fuel i)
    cases hatt : att i with
    | connErr m =>
      have hatt' : att' i = .connErr m := by rw [← hi]; exact hatt
      have hsame : retryLoop att i (fuel + 1) = retryLoop att (i + 1) fuel := by
        simp only [retryLoop, hatt]
      simp only [retryLoop, hatt, hatt']
      apply ih (i + 1)
      intro j hj1 hj2
      apply h j (by omega)
      rw [hsame]
      exact hj2
    | otherExc m =>
      have hatt' : att' i = .otherExc m := by rw [← hi]; exact hatt
      simp only [retryLoop, hatt, hatt']
    | resp r =>
      have hatt' : att' i = .resp r := by rw [← hi]; exact hatt
      cases hrs : raise_for_status r with
      | some e =>
        have hsame : retryLoop att i (fuel + 1) = retryLoop att (i + 1) fuel := by
          simp only [retryLoop, hatt, hrs]
        simp only [retryLoop, hatt, hatt', hrs]
        apply ih (i + 1)
        intro j hj1 hj2
        apply h j (by omega)
        rw [hsame]
        exact hj2
      | none => simp only [retryLoop, hatt, hatt', hrs]

/-- C1 (counterexample): the claim says `_retryable` returns a response
exactly when one of the first `MAX_RETRIES` attempts yields a 2xx status.
With every attempt answering HTTP 304 — not a 2xx status — `_retryable`
still returns the response, because `raise_for_status` only rejects
4xx/5xx.  So a returned response does not imply a 2xx attempt. -/
theorem C1_counterexample :
    (_retryable c1att).1 = .returns ⟨304, "not modified"⟩ ∧
    c1att 0 = .resp ⟨304, "not modified"⟩ ∧
    c1att 1 = .resp ⟨304, "not modified"⟩ ∧
    c1att 2 = .resp ⟨304, "not modified"⟩ ∧
    ¬(200 ≤ 304 ∧ 304 ≤ 299) := by
  exact ⟨rfl, rfl, rfl, rfl, by omega⟩

/-- C1 (amended): over attempts that are responses or connection-level
failures, `_retryable` returns a response exactly when one of the first
`MAX_RETRIES` attempts yields a response `raise_for_status` accepts
(status outside 400-599, which includes every 2xx but also 1xx/3xx); it
returns the response of the first such attempt; and when all `MAX_RETRIES`
attempts end in a 4xx/5xx status or a connection-level failure it raises
instead of returning. -/
theorem C1_send_success (att : Nat → Attempt)
    (hno : ∀ i, i < MAX_RETRIES →
      attemptSucceeds (att i) = true ∨ attemptRetries (att i) = true) :
    ((∃ i, i < MAX_RETRIES ∧ attemptSucceeds (att i) = true) ↔
      ∃ r, (_retryable att).1 = .returns r) ∧
    (∀ k r, k < MAX_RETRIES → (∀ j, j < k → attemptRetries (att j) = true) →
      att k = .resp r → raise_for_status r = none →
      (_retryable att).1 = .returns r) ∧
    ((∀ i, i < MAX_RETRIES → attemptRetries (att i) = true) →
      (_retryable att).1 = .raises (.httpError "All attempts failed")) := by
  have hfirst : ∀ k r, k < MAX_RETRIES →
      (∀ j, j < k → attemptRetries (att j) = true) →
      att k = .resp r → raise_for_status r = none →
      (_retryable att).1 = .returns r := by
    intro k r hk hpre hat hrs
    have := retryLoop_first_success att k 0 MAX_RETRIES hk
      (fun j hj => by simpa using hpre j hj) r (by simpa using hat) hrs
    simp [_retryable, this]
  refine ⟨⟨?_, ?_⟩, hfirst, ?_⟩
  · intro hex
    obtain ⟨i0, hi0⟩ := hex
    have hk := Nat.find_spec (p := fun i => i < MAX_RETRIES ∧ attemptSucceeds (att i) = true) ⟨i0, hi0⟩
    set k := Nat.find (p := fun i => i < MAX_RETRIES ∧ attemptSucceeds (att i) = true) ⟨i0, hi0⟩ with hkdef
    have hpre : ∀ j, j < k → attemptRetries (att j) = true := by
      intro j hj
      have hmin := Nat.find_min (p := fun i => i < MAX_RETRIES ∧ attemptSucceeds (att i) = true) ⟨i0, hi0⟩ hj
      have hjlt : j < MAX_RETRIES := lt_trans hj hk.1
      rcases hno j hjlt with hs | hr
      · exact absurd ⟨hjlt, hs⟩ hmin
      · exact hr
    cases hat : att k with
    | resp r =>
      have hrs : raise_for_status r = none := by
        have := hk.2
        rw [hat] at this
        simpa [attemptSucceeds, Option.isNone_iff_eq_none] using this
      exact ⟨r, hfirst k r hk.1 hpre hat hrs⟩
    | connErr m =>
      have := hk.2
      rw [hat] at this
      simp [attemptSucceeds] at this
    | otherExc m =>
      have := hk.2
      rw [hat] at this
      simp [attemptSucceeds] at this
  · intro hex
    obtain ⟨r, hr⟩ := hex
    obtain ⟨p, hret⟩ : ∃ p, _retryable att = ((_retryable att).1, (_retryable att).2) := ⟨(_retryable att).2, rfl⟩
    obtain ⟨j, hj, hat, hrs⟩ := retryLoop_returns att MAX_RETRIES 0 r (_retryable att).2
      (by rw [← hr]; rfl)
    refine ⟨j, by simpa using hj, ?_⟩
    simp only [Nat.zero_add] at hat
    simp [attemptSucceeds, hat, hrs]
  · intro hall
    have := retryLoop_all_fail att MAX_RETRIES 0
      (fun j hj => by simpa using hall j (by simpa using hj))
    simp [_retryable, this]

/-- C1 (witness): the amended claim instantiated on a script whose first
attempt is a 503 response, second a connection failure, third a 200
response: `_retryable` returns the 200 response. -/
theorem C1_send_success_witness :
    (_retryable (attFromList [.resp ⟨503, "down"⟩, .connErr "reset",
        .resp ⟨200, "ok"⟩] (.connErr "z"))).1 = .returns ⟨200, "ok"⟩ :=
  (C1_send_success (attFromList [.resp ⟨503, "down"⟩, .connErr "reset",
      .resp ⟨200, "ok"⟩] (.connErr "z")) (by decide)).2.1
    2 ⟨200, "ok"⟩ (by decide) (by decide) (by decide) (by decide)

/-- C2: `_retryable` issues at most `MAX_RETRIES` HTTP calls on every
attempt script, and it consults no attempt beyond the calls it issued: any
script agreeing on the issued calls produces the identical run, so after a
terminating attempt no further attempt is issued. -/
theorem C2_bounded_retries (att : Nat → Attempt) :
    (_retryable att).2 ≤ MAX_RETRIES ∧
    (∀ att', (∀ j, j < (_retryable att).2 → att j = att' j) →
      _retryable att = _retryable att') ∧
    ∀ k r, k < MAX_RETRIES → (∀ j, j < k → attemptRetries (att j) = true) →
      att k = .resp r → raise_for_status r = none →
      (_retryable att).2 = k + 1 := by
  refine ⟨?_, ?_, ?_⟩
  · simpa [_retryable] using retryLoop_count_le att MAX_RETRIES 0
  · intro att' h
    exact retryLoop_congr att att' MAX_RETRIES 0 fun j _ hj => h j hj
  · intro k r hk hpre hat hrs
    have := retryLoop_first_success att k 0 MAX_RETRIES hk
      (fun j hj => by simpa using hpre j hj) r (by simpa using hat) hrs
    simp [_retryable, this]

/-- C2 (witness): under persistent connection failure exactly the bound
applies, and the run ignores everything beyond the issued calls. -/
theorem C2_bounded_retries_witness :
    (_retryable c2att).2 ≤ MAX_RETRIES ∧
    _retryable c2att = _retryable c2att2 ∧
    (_retryable c2att3).2 = 1 :=
  ⟨(C2_bounded_retries c2att).1,
   (C2_bounded_retries c2att).2.1 c2att2 (by decide),
   (C2_bounded_retries c2att3).2.2 0 ⟨200, "ok"⟩ (by decide)
     (fun j hj => absurd hj (Nat.not_lt_zero j)) (by decide) (by decide)⟩

/-- C3 (counterexample): the claim says the error raised after all attempts
fail carries the last attempt's error.  With all three attempts failing
with a ConnectionError whose message is "boom", the raised exception is
`HTTPError("All attempts failed")` — a constant whose message does not
contain the last error's message at all. -/
theorem C3_counterexample :
    (_retryable c3att).1 = .raises (.httpError "All attempts failed") ∧
    c3att 2 = .connErr "boom" ∧
    ¬ List.IsInfix "boom".data "All attempts failed".data := by
  exact ⟨rfl, rfl, by decide⟩

/-- C3 (amended): when all `MAX_RETRIES` attempts fail with caught errors,
`_retryable` raises `HTTPError` with the constant message
"All attempts failed" — not carrying the last attempt's error — and does
not return a response. -/
theorem C3_exhausted_raises (att : Nat → Attempt)
    (h : ∀ i, i < MAX_RETRIES → attemptRetries (att i) = true) :
    (_retryable att).1 = .raises (.httpError "All attempts failed") ∧
    ∀ r, (_retryable att).1 ≠ .returns r := by
  have hall := retryLoop_all_fail att MAX_RETRIES 0
    (fun j hj => by simpa using h j (by simpa using hj))
  constructor
  · simp [_retryable, hall]
  · intro r
    simp [_retryable, hall]

/-- C3 (witness): the amended claim on the all-"boom" script. -/
theorem C3_exhausted_raises_witness :
    (_retryable c3att).1 = .raises (.httpError "All attempts failed") :=
  (C3_exhausted_raises c3att (by decide)).1

/-- A successful dict lookup finds a binding of the list. -/
theorem dictGet_mem (d : List (String × Json)) (k : String) (v : Json) :
    dictGet d k = some v → (k, v) ∈ d := by
  induction d with
  | nil => intro h; simp [dictGet] at h
  | cons p rest ih =>
    obtain ⟨k2, v2⟩ := p
    intro h
    by_cases hk : k2 = k
    · simp only [dictGet, if_pos hk] at h
      subst hk
      obtain rfl : v2 = v := Option.some.inj h
      exact List.mem_cons_self _ _
    · simp only [dictGet, if_neg hk] at h
      exact List.mem_cons_of_mem _ (ih h)

/-- Materialization over any name list succeeds on well-formed data, yields
one table per name in order, and an empty table for every absent name. -/
theorem materializeList_ok (bd : List (String × Json))
    (h : ∀ p ∈ bd, Json.isArr p.2 = true) (names : List String) :
    ∃ tables, materializeList bd names = .ok tables ∧
      tables.map Prod.fst = names ∧
      ∀ p ∈ tables, dictGet bd p.1 = none → p.2 = [] := by
  induction names with
  | nil => exact ⟨[], rfl, rfl, by simp⟩
  | cons e rest ih =>
    obtain ⟨tables, h1, h2, h3⟩ := ih
    have he : ∃ t, pdDataFrame (dictGet bd e) = .ok t ∧
        (dictGet bd e = none → t = []) := by
      cases hd : dictGet bd e with
      | none => exact ⟨[], rfl, fun _ => rfl⟩
      | some v =>
        have hv : Json.isArr v = true := h (e, v) (dictGet_mem bd e v hd)
        cases v with
        | arr rows =>
          exact ⟨rows, rfl, fun hnone => absurd hnone (by simp)⟩
        | null => simp [Json.isArr] at hv
        | bool b => simp [Json.isArr] at hv
        | num n => simp [Json.isArr] at hv
        | str s => simp [Json.isArr] at hv
        | obj fs => simp [Json.isArr] at hv
    obtain ⟨t, ht1, ht2⟩ := he
    refine ⟨(e, t) :: tables, ?_, ?_, ?_⟩
    · simp only [materializeList, ht1, h1]
    · simp [h2]
    · intro p hp hnone
      rcases List.mem_cons.mp hp with rfl | hp2
      · exact ht2 hnone
      · exact h3 p hp2 hnone

/-- C4: for every job dict missing the key "id" or the key "data", the
worker run is exactly the KeyError abort: one error-level log message, zero
HTTP calls, no request built, and a normal early return (no crash) — before
any materialization, validation or dispatch, independently of the
environment. -/
theorem C4_malformed_abort (job : List (String × Json)) (ns ais : String)
    (b64 : Option String) (env : Env)
    (h : dictGet job "id" = none ∨ dictGet job "data" = none) :
    worker job ns ais b64 env = abortRun ∧
    abortRun.outcome = .malformedAbort ∧
    abortRun.errorLogs.length = 1 ∧
    abortRun.httpCalls = 0 ∧
    abortRun.sent = none := by
  refine ⟨?_, rfl, rfl, rfl, rfl⟩
  rcases h with h | h
  · simp [worker, h]
  · cases hid : dictGet job "id" with
    | none => simp [worker, hid]
    | some bid => simp [worker, hid, h]

/-- C4 (witness): the idless job aborts with one logged error and no calls. -/
theorem C4_malformed_abort_witness :
    worker c4job "http://next" "volume-type-ai" none envOk = abortRun ∧
    abortRun.outcome = .malformedAbort ∧
    abortRun.errorLogs.length = 1 ∧
    abortRun.httpCalls = 0 ∧
    abortRun.sent = none :=
  C4_malformed_abort c4job "http://next" "volume-type-ai" none envOk (Or.inl rfl)

/-- C5: on every well-formed data map (each entity bound to a list of
records), materialization succeeds, builds exactly one table per name of
the fixed entity list in order, and every entity absent from the map gets
an empty table rather than an error. -/
theorem C5_materialize_total (bd : List (String × Json))
    (h : ∀ p ∈ bd, Json.isArr p.2 = true) :
    ∃ tables, materialize bd = .ok tables ∧
      tables.map Prod.fst = entities ∧
      ∀ p ∈ tables, dictGet bd p.1 = none → p.2 = [] :=
  materializeList_ok bd h entities

/-- C5 (witness): a data map binding only "volumes"; the other six entities
are absent and materialize to empty tables. -/
theorem C5_materialize_total_witness :
    ∃ tables,
      materialize [("volumes", .arr [.obj [("id", .num 1)]])] = .ok tables ∧
      tables.map Prod.fst = entities ∧
      ∀ p ∈ tables,
        dictGet [("volumes", .arr [.obj [("id", .num 1)]])] p.1 = none →
          p.2 = [] :=
  C5_materialize_total [("volumes", .arr [.obj [("id", .num 1)]])]
    (by intro p hp; rcases List.mem_singleton.mp hp with rfl; rfl)

/-- C6: on a well-formed job, an error raised by the validator's
`validate()` is not caught anywhere in the worker: the run crashes with
that error, no error is logged by the worker, no envelope or request is
built, and no HTTP call is issued. -/
theorem C6_validator_error_fatal (job : List (String × Json)) (ns ais : String)
    (b64 : Option String) (env : Env) (bid : Json) (bd : List (String × Json))
    (tables : List (String × List Json)) (m : String)
    (hid : dictGet job "id" = some bid)
    (hdata : dictGet job "data" = some (.obj bd))
    (hm : materialize bd = .ok tables)
    (hv : env.validator tables = .raises m) :
    worker job ns ais b64 env =
      { outcome := .crashed m, errorLogs := [], httpCalls := 0, sent := none } := by
  simp [worker, hid, hdata, hm, hv]

/-- C6 (witness): the raising validator crashes the worker run on the
well-formed job, with no log, no request and no HTTP call. -/
theorem C6_validator_error_fatal_witness :
    worker wellJob "http://next" "volume-type-ai" none envRaise =
      { outcome := .crashed "KeyError in validator", errorLogs := []
        httpCalls := 0, sent := none } :=
  C6_validator_error_fatal wellJob "http://next" "volume-type-ai" none envRaise
    (.str "b1") wellData wellTables "KeyError in validator" rfl rfl rfl rfl

/-- Helper (shared by C7/C8/C9/C10 and their witnesses): whenever the
worker reaches dispatch, the request handed to `_retryable` is a POST to
`next_service` whose body is the output envelope and whose headers are the
prepared identity header. -/
theorem worker_sent (job : List (String × Json)) (ns ais : String)
    (b64 : Option String) (env : Env) (bid : Json) (bd : List (String × Json))
    (tables : List (String × List Json)) (rd : List (String × Json))
    (hid : dictGet job "id" = some bid)
    (hdata : dictGet job "data" = some (.obj bd))
    (hm : materialize bd = .ok tables)
    (hv : env.validator tables = .returns rd) :
    (worker job ns ais b64 env).sent =
      some { method := "post", url := ns
             body := .obj [("id", bid), ("ai_service", .str ais),
               ("data", .obj rd)]
             headers := prepareHeaders [("x-rh-identity", b64)] } := by
  rcases hr : _retryable env.http with ⟨o, n⟩
  cases o with
  | returns r => simp [worker, hid, hdata, hm, hv, hr]
  | raises e =>
    cases e with
    | httpError m => simp [worker, hid, hdata, hm, hv, hr]
    | connectionError m => simp [worker, hid, hdata, hm, hv, hr]
    | other m => simp [worker, hid, hdata, hm, hv, hr]

/-- C7: on a well-formed job whose dispatch exhausts all retries, the
raised `HTTPError("All attempts failed")` is caught inside the worker:
the run ends in `doneDeliveryFailed` (a normal return, not a crash),
exactly one error is logged, and that message contains the job's id. -/
theorem C7_delivery_failed_contained (job : List (String × Json))
    (ns ais : String) (b64 : Option String) (env : Env) (bid : String)
    (bd : List (String × Json)) (tables : List (String × List Json))
    (rd : List (String × Json))
    (hid : dictGet job "id" = some (.str bid))
    (hdata : dictGet job "data" = some (.obj bd))
    (hm : materialize bd = .ok tables)
    (hv : env.validator tables = .returns rd)
    (hfail : ∀ i, i < MAX_RETRIES → attemptRetries (env.http i) = true) :
    worker job ns ais b64 env =
      { outcome := .doneDeliveryFailed
        errorLogs := [deliveryFailedLog bid]
        httpCalls := MAX_RETRIES
        sent := some { method := "post", url := ns,
                       body := .obj [("id", .str bid),
                         ("ai_service", .str ais), ("data", .obj rd)],
                       headers :=
                         prepareHeaders [("x-rh-identity", b64)] } } ∧
    List.IsInfix bid.data (deliveryFailedLog bid).data := by
  have hall := retryLoop_all_fail env.http MAX_RETRIES 0
    (fun j hj => by simpa using hfail j (by simpa using hj))
  constructor
  · have hret : _retryable env.http =
        (.raises (.httpError "All attempts failed"), MAX_RETRIES) := by
      simpa [_retryable] using hall
    simp [worker, hid, hdata, hm, hv, hret, pyStr, deliveryFailedLog]
  · refine ⟨"Failed to pass data for \"".data,
      ("\": " ++ "All attempts failed").data, ?_⟩
    simp [deliveryFailedLog, String.data_append]

/-- C7 (witness): the well-formed job against the always-500 endpoint ends
contained, with the single logged error naming job id "b1". -/
theorem C7_delivery_failed_contained_witness :
    worker wellJob "http://next" "volume-type-ai" none envFail =
      { outcome := .doneDeliveryFailed
        errorLogs := [deliveryFailedLog "b1"]
        httpCalls := MAX_RETRIES
        sent := some { method := "post", url := "http://next",
                       body := .obj [("id", .str "b1"),
                         ("ai_service", .str "volume-type-ai"),
                         ("data", .obj [("flagged", .arr [])])],
                       headers :=
                         prepareHeaders [("x-rh-identity", none)] } } ∧
    List.IsInfix "b1".data (deliveryFailedLog "b1").data :=
  C7_delivery_failed_contained wellJob "http://next" "volume-type-ai" none
    envFail "b1" wellData wellTables [("flagged", .arr [])]
    rfl rfl rfl rfl (by decide)

/-- C8: on every well-formed job that reaches dispatch, the worker POSTs to
`next_service` a JSON body that is exactly the envelope of the job's
original id, the configured ai_service label, and the validator's result as
a mapping. -/
theorem C8_envelope (job : List (String × Json)) (ns ais : String)
    (b64 : Option String) (env : Env) (bid : Json) (bd : List (String × Json))
    (tables : List (String × List Json)) (rd : List (String × Json))
    (hid : dictGet job "id" = some bid)
    (hdata : dictGet job "data" = some (.obj bd))
    (hm : materialize bd = .ok tables)
    (hv : env.validator tables = .returns rd) :
    (worker job ns ais b64 env).sent =
      some { method := "post", url := ns
             body := .obj [("id", bid), ("ai_service", .str ais),
               ("data", .obj rd)]
             headers := prepareHeaders [("x-rh-identity", b64)] } :=
  worker_sent job ns ais b64 env bid bd tables rd hid hdata hm hv

/-- C8 (witness): the well-formed job dispatches the envelope of scenario A
of the specification. -/
theorem C8_envelope_witness :
    (worker wellJob "http://next" "volume-type-ai" (some "idhdr") envOk).sent =
      some { method := "post", url := "http://next"
             body := .obj [("id", .str "b1"),
               ("ai_service", .str "volume-type-ai"),
               ("data", .obj [("flagged", .arr [])])]
             headers := prepareHeaders [("x-rh-identity", some "idhdr")] } :=
  C8_envelope wellJob "http://next" "volume-type-ai" (some "idhdr") envOk
    (.str "b1") wellData wellTables [("flagged", .arr [])] rfl rfl rfl rfl

/-- C9 (counterexample): the claim says that when `b64_identity` is None
the `x-rh-identity` header key is still sent.  On a well-formed job
launched with `b64_identity = None`, the dispatched request's header list
is empty: requests removes None-valued header keys (`merge_setting`), so
the key is not sent at all. -/
theorem C9_counterexample :
    sentHeaders (worker wellJob "http://next" "volume-type-ai" none envOk) =
      some [] := rfl

/-- C9 (amended): the identity header is forwarded verbatim and never
inspected or modified when `b64_identity` is a string; when it is None,
no `x-rh-identity` header — not even the bare key — is sent, because
requests drops None-valued headers. -/
theorem C9_identity_header (job : List (String × Json)) (ns ais : String)
    (env : Env) (bid : Json) (bd : List (String × Json))
    (tables : List (String × List Json)) (rd : List (String × Json))
    (hid : dictGet job "id" = some bid)
    (hdata : dictGet job "data" = some (.obj bd))
    (hm : materialize bd = .ok tables)
    (hv : env.validator tables = .returns rd) :
    (∀ s : String, sentHeaders (worker job ns ais (some s) env) =
      some [("x-rh-identity", s)]) ∧
    sentHeaders (worker job ns ais none env) = some [] := by
  constructor
  · intro s
    rw [sentHeaders,
      worker_sent job ns ais (some s) env bid bd tables rd hid hdata hm hv]
    rfl
  · rw [sentHeaders,
      worker_sent job ns ais none env bid bd tables rd hid hdata hm hv]
    rfl

/-- C9 (witness): the amended claim on the well-formed job, with a concrete
identity string and with None. -/
theorem C9_identity_header_witness :
    sentHeaders (worker wellJob "http://next" "volume-type-ai"
        (some "dG9rZW4=") envOk) = some [("x-rh-identity", "dG9rZW4=")] ∧
    sentHeaders (worker wellJob "http://next" "volume-type-ai" none envOk) =
      some [] :=
  ⟨(C9_identity_header wellJob "http://next" "volume-type-ai" envOk
      (.str "b1") wellData wellTables [("flagged", .arr [])]
      rfl rfl rfl rfl).1 "dG9rZW4=",
   (C9_identity_header wellJob "http://next" "volume-type-ai" envOk
      (.str "b1") wellData wellTables [("flagged", .arr [])]
      rfl rfl rfl rfl).2⟩

/-- C10: only HTTPError and ConnectionError count as failed attempts and
trigger a retry.  If the first exception of another kind (e.g. a read
timeout) occurs at attempt k after k caught failures, `_retryable`
propagates it at once — after exactly k+1 calls, without consuming the
remaining attempts and without converting it into the exhaustion error —
and the worker's dispatch handler (`except requests.HTTPError`) does not
catch it: the run crashes with that exception and logs nothing. -/
theorem C10_other_exc_propagates (job : List (String × Json)) (ns ais : String)
    (b64 : Option String) (env : Env) (bid : Json) (bd : List (String × Json))
    (tables : List (String × List Json)) (rd : List (String × Json))
    (k : Nat) (m : String)
    (hid : dictGet job "id" = some bid)
    (hdata : dictGet job "data" = some (.obj bd))
    (hm : materialize bd = .ok tables)
    (hv : env.validator tables = .returns rd)
    (hk : k < MAX_RETRIES)
    (hpre : ∀ j, j < k → attemptRetries (env.http j) = true)
    (hat : env.http k = .otherExc m) :
    _retryable env.http = (.raises (.other m), k + 1) ∧
    worker job ns ais b64 env =
      { outcome := .crashed m, errorLogs := [], httpCalls := k + 1
        sent := some { method := "post", url := ns,
                       body := .obj [("id", bid),
                         ("ai_service", .str ais), ("data", .obj rd)],
                       headers :=
                         prepareHeaders [("x-rh-identity", b64)] } } := by
  have hret : _retryable env.http = (.raises (.other m), k + 1) := by
    have := retryLoop_first_other env.http k 0 MAX_RETRIES hk
      (fun j hj => by simpa using hpre j hj) m (by simpa using hat)
    simpa [_retryable] using this
  refine ⟨hret, ?_⟩
  simp [worker, hid, hdata, hm, hv, hret, PyExc.msg]

/-- C10 (witness): the read timeout at attempt 1 propagates after exactly
two calls and crashes the worker run on the well-formed job. -/
theorem C10_other_exc_propagates_witness :
    _retryable envTimeout.http = (.raises (.other "read timed out"), 2) ∧
    worker wellJob "http://next" "volume-type-ai" none envTimeout =
      { outcome := .crashed "read timed out", errorLogs := [], httpCalls := 2
        sent := some { method := "post", url := "http://next",
                       body := .obj [("id", .str "b1"),
                         ("ai_service", .str "volume-type-ai"),
                         ("data", .obj [("flagged", .arr [])])],
                       headers :=
                         prepareHeaders [("x-rh-identity", none)] } } :=
  C10_other_exc_propagates wellJob "http://next" "volume-type-ai" none
    envTimeout (.str "b1") wellData wellTables [("flagged", .arr [])] 1
    "read timed out" rfl rfl rfl rfl (by decide) (by decide) rfl

end Workers
